import Mathlib

/-!
# Verification of the bedtime-reminder bot (`src/discord-bot.py`)

Shallow embedding of the escalation policy and reminder scheduler of the
Discord "Sleep Enforcer" bot, together with proofs that settle the spec's
claims against the code.

Modelling conventions:
* Python floats for "minutes past bedtime" become `ℚ` (the comparisons in the
  source are exact threshold comparisons, so rationals are a faithful carrier).
* A Python `datetime` becomes a calendar day index together with the number of
  seconds elapsed since that day's midnight (`PyDateTime`).  This mirrors the
  source's `datetime.combine(current.date(), bedtime)` arithmetic, including
  its lack of midnight rollover.
* Exceptions that the source catches locally (per-recipient delivery failures,
  broadcast failures) become explicit outcome values supplied by a
  `DeliveryEnv`; the embedded functions are total, as the source's
  tick/delivery functions never let an exception escape those `try` blocks.
* The global mutable pair `last_ping_time` / `escalation_level` becomes the
  explicit `SchedulerState` record, and the tick handler `check_bedtime`
  becomes a function from state to state plus an optional emitted effect.
-/

namespace SleepBot

/-- Embeds `get_escalation_level` (src/discord-bot.py lines 59-72):
maps minutes past bedtime to an escalation level 0..4, or `none` when the
moment is more than 15 minutes before bedtime. -/
def get_escalation_level (minutes_past_bedtime : ℚ) : Option ℤ :=
  if minutes_past_bedtime < -15 then none
  else if minutes_past_bedtime < 0 then some 0
  else if minutes_past_bedtime < 5 then some 1
  else if minutes_past_bedtime < 15 then some 2
  else if minutes_past_bedtime < 25 then some 3
  else some 4

/-- Embeds `get_ping_interval` (src/discord-bot.py lines 74-83): the
`intervals` dict lookup with default 300, i.e. `intervals.get(level, 300)`. -/
def get_ping_interval (level : ℤ) : ℕ :=
  if level = 0 then 900
  else if level = 1 then 300
  else if level = 2 then 300
  else if level = 3 then 120
  else if level = 4 then 60
  else 300

/-- Embeds `get_message` (src/discord-bot.py lines 85-94): the `messages`
dict lookup with the generic fallback. -/
def get_message (level : ℤ) : String :=
  if level = 0 then "⏰ **15 minutes until bedtime!** Start wrapping up what you're doing."
  else if level = 1 then "🛏️ **It's bedtime!** Time to sleep for a healthy tomorrow."
  else if level = 2 then "😴 **You should be in bed by now.** Please head to sleep."
  else if level = 3 then "⚠️ **SERIOUSLY, GO TO BED!** Your sleep schedule matters!"
  else if level = 4 then "🚨 **SLEEP NOW!!!** Every minute you delay affects your health! GO TO BED IMMEDIATELY!"
  else "Go to sleep!"

/-- A Python `datetime` value: a calendar day index plus seconds elapsed since
that day's local midnight (fractional seconds allowed, as `datetime` carries
microseconds). -/
structure PyDateTime where
  day : ℤ
  sec : ℚ
deriving DecidableEq, Repr

/-- `(a - b).total_seconds()` for two `datetime` values. -/
def dtSub (a b : PyDateTime) : ℚ :=
  86400 * ((a.day : ℚ) - (b.day : ℚ)) + (a.sec - b.sec)

/-- The parts of `config.json` the bot reads, with the bedtime already split
into hour and minute (the parsing of the `"HH:MM"` string is modelled
separately by `parse_bedtime`). -/
structure BotConfig where
  bedtimeHour : ℕ
  bedtimeMinute : ℕ
  userIds : List ℕ
  serverId : Option ℕ
  channelId : Option ℕ

/-- Embeds `should_send_reminder` (src/discord-bot.py lines 47-57): combines
today's date with the configured bedtime and returns the signed difference to
`now` in minutes.  The function unconditionally returns this number — it has
no `None` branch.  Because `datetime.combine(current.date(), bedtime)` uses
the *current* day, the day component cancels and only the time of day
matters (the source's midnight-rollover quirk). -/
def should_send_reminder (now : PyDateTime) (cfg : BotConfig) : ℚ :=
  (now.sec - (3600 * (cfg.bedtimeHour : ℚ) + 60 * (cfg.bedtimeMinute : ℚ))) / 60

/-- The bot's global mutable state (src/discord-bot.py lines 40-41):
`last_ping_time = None`, `escalation_level = 0`. -/
structure SchedulerState where
  last_ping_time : Option PyDateTime
  escalation_level : ℤ
deriving DecidableEq, Repr

/-- The initial state set at module load (src/discord-bot.py lines 40-41). -/
def initialState : SchedulerState :=
  { last_ping_time := none, escalation_level := 0 }

/-- Embeds the tick handler `check_bedtime` (src/discord-bot.py lines
102-129) as a function from the current instant and state to the new state
plus an optional effect: `some level` means "`send_reminders(level)` was
awaited and `last_ping_time` was set to `now`".

The source guards on `minutes_past is None`, but `should_send_reminder`
always returns a number; the embedding keeps that dead guard by wrapping the
returned value in `some` and matching on it, exactly as the source tests it. -/
def check_bedtime (now : PyDateTime) (cfg : BotConfig) (s : SchedulerState) :
    SchedulerState × Option ℤ :=
  let minutes_past : Option ℚ := some (should_send_reminder now cfg)
  match minutes_past with
  | none => ({ last_ping_time := none, escalation_level := 0 }, none)
  | some mp =>
    match get_escalation_level mp with
    | none => (s, none)
    | some current_level =>
      let interval : ℕ := get_ping_interval current_level
      match s.last_ping_time with
      | none =>
          ({ last_ping_time := some now, escalation_level := current_level },
           some current_level)
      | some t =>
          if dtSub now t ≥ (interval : ℚ) then
            ({ last_ping_time := some now, escalation_level := current_level },
             some current_level)
          else
            ({ last_ping_time := some t, escalation_level := current_level },
             none)

/-- Outcome of the two fallible Discord calls made for one recipient inside
the DM loop of `send_reminders`: `bot.fetch_user` may raise (caught), and
`user.send` may raise `discord.Forbidden` or any other exception (caught). -/
inductive DMOutcome where
  | fetchFailed
  | sendFailed
  | delivered
deriving DecidableEq, Repr

/-- The external Discord world as `send_reminders` observes it: the outcome
of the per-recipient fetch/DM calls, whether `get_guild` / `get_channel`
resolve, and whether the broadcast `channel.send` succeeds. -/
structure DeliveryEnv where
  dm : ℕ → DMOutcome
  guildFound : Bool
  channelFound : Bool
  broadcastOk : Bool

/-- Observable result of one `send_reminders` call. `users` is the list the
source accumulates (every recipient whose `fetch_user` succeeded — the append
happens *before* `user.send`), `dmDelivered` the recipients whose DM actually
went out, `broadcastMentions` the mention list of the broadcast message when
one was sent. -/
structure SendResult where
  users : List ℕ
  dmDelivered : List ℕ
  broadcastSent : Bool
  broadcastMentions : List ℕ
deriving DecidableEq, Repr

/-- One iteration of the DM loop (src/discord-bot.py lines 142-151): on fetch
failure the recipient is skipped entirely; on send failure the recipient is
already in `users`; on success it is also recorded as delivered.  All three
paths fall through to the next recipient (the exceptions are caught). -/
def dmLoopStep (env : DeliveryEnv) (acc : List ℕ × List ℕ) (uid : ℕ) :
    List ℕ × List ℕ :=
  match env.dm uid with
  | DMOutcome.fetchFailed => acc
  | DMOutcome.sendFailed => (acc.1 ++ [uid], acc.2)
  | DMOutcome.delivered => (acc.1 ++ [uid], acc.2 ++ [uid])

/-- Embeds `send_reminders` (src/discord-bot.py lines 131-164): early return
on an empty `user_ids`, the per-recipient DM loop, then the guarded broadcast
(`server_id` and `channel_id` configured, `users` non-empty, guild and
channel resolved, `channel.send` not raising). -/
def send_reminders (cfg : BotConfig) (env : DeliveryEnv) : SendResult :=
  if cfg.userIds = [] then
    { users := [], dmDelivered := [], broadcastSent := false,
      broadcastMentions := [] }
  else
    let acc := cfg.userIds.foldl (dmLoopStep env) ([], [])
    let users := acc.1
    let broadcast :=
      cfg.serverId.isSome && cfg.channelId.isSome && !users.isEmpty &&
        env.guildFound && env.channelFound && env.broadcastOk
    { users := users, dmDelivered := acc.2, broadcastSent := broadcast,
      broadcastMentions := if broadcast then users else [] }

/-- Embeds the `!sleep_test` command handler `test_reminder`
(src/discord-bot.py lines 179-188): a level inside `[0, 4]` triggers
`send_reminders(level)` immediately; anything else yields only the usage
message.  Neither path touches the globals `last_ping_time` /
`escalation_level`, so the state is returned unchanged. -/
def test_reminder (level : ℤ) (cfg : BotConfig) (env : DeliveryEnv)
    (s : SchedulerState) : SchedulerState × Option SendResult :=
  if 0 ≤ level ∧ level ≤ 4 then (s, some (send_reminders cfg env))
  else (s, none)

/-- Helper for `splitOnChar`: accumulates the current piece (reversed) while
scanning the remaining characters. -/
def splitOnAux (sep : Char) : List Char → List Char → List (List Char)
  | [], cur => [cur.reverse]
  | c :: rest, cur =>
    if c = sep then cur.reverse :: splitOnAux sep rest []
    else splitOnAux sep rest (c :: cur)

/-- Python `s.split(sep)` for a one-character separator (Python strings are
modelled as `List Char` so that parsing is kernel-computable). -/
def splitOnChar (s : List Char) (sep : Char) : List (List Char) :=
  splitOnAux sep s []

/-- Value of a decimal digit character, or `none`. -/
def digitVal (c : Char) : Option ℕ :=
  if '0' ≤ c ∧ c ≤ '9' then some (c.toNat - '0'.toNat) else none

/-- Helper for `pyInt`: folds decimal digits into an accumulator, failing on
the first non-digit. -/
def digitsToNat : ℕ → List Char → Option ℕ
  | acc, [] => some acc
  | acc, c :: rest =>
    match digitVal c with
    | none => none
    | some d => digitsToNat (10 * acc + d) rest

/-- Python `int(s)` on the strings the bedtime parser feeds it: an optional
leading sign followed by at least one decimal digit; anything else raises
`ValueError` (modelled as `none`). -/
def pyInt : List Char → Option ℤ
  | [] => none
  | '-' :: rest =>
      if rest = [] then none else (digitsToNat 0 rest).map (fun n => -(n : ℤ))
  | '+' :: rest =>
      if rest = [] then none else (digitsToNat 0 rest).map (fun n => (n : ℤ))
  | s => (digitsToNat 0 s).map (fun n => (n : ℤ))

/-- Embeds the bedtime parsing done inside `should_send_reminder`
(src/discord-bot.py lines 50-51): `config['bedtime'].split(':')` must unpack
into exactly two pieces, each must parse as an `int`, and
`datetime.time(h, m)` requires `0 ≤ h ≤ 23` and `0 ≤ m ≤ 59`; any failure
raises at the call site — which is the tick handler, not startup. -/
def parse_bedtime (s : List Char) : Option (ℤ × ℤ) :=
  match splitOnChar s ':' with
  | [h, m] =>
    match pyInt h, pyInt m with
    | some hv, some mv =>
        if 0 ≤ hv ∧ hv ≤ 23 ∧ 0 ≤ mv ∧ mv ≤ 59 then some (hv, mv) else none
    | _, _ => none
  | _ => none

/-- Embeds the `__main__` guard (src/discord-bot.py lines 191-202): the only
check before `bot.run(token)` is `if not token` — Python's `not` is true for
both an unset variable (`None`) and an empty string.  Returns `true` exactly
when the process goes on to start the bot (and hence the tick loop). -/
def startup_runs_bot (token : Option (List Char)) : Bool :=
  match token with
  | none => false
  | some t => !t.isEmpty

/-- Config with bedtime 22:30 and one recipient, used for concrete ticks. -/
def cfg2230 : BotConfig :=
  { bedtimeHour := 22, bedtimeMinute := 30, userIds := [111],
    serverId := some 5, channelId := some 6 }

/-- Config with bedtime 23:00 and one recipient. -/
def cfg2300 : BotConfig :=
  { bedtimeHour := 23, bedtimeMinute := 0, userIds := [111],
    serverId := some 5, channelId := some 6 }

/-- Config with bedtime 22:30 and an empty recipient list. -/
def cfgNoUsers : BotConfig :=
  { bedtimeHour := 22, bedtimeMinute := 30, userIds := [],
    serverId := some 5, channelId := some 6 }

/-- Delivery environment in which every Discord call succeeds. -/
def envAllOk : DeliveryEnv :=
  { dm := fun _ => DMOutcome.delivered, guildFound := true,
    channelFound := true, broadcastOk := true }

/-- Delivery environment in which every `user.send` raises
(`discord.Forbidden`, recipient has DMs disabled) while `fetch_user` and the
broadcast channel calls succeed. -/
def envDMsBlocked : DeliveryEnv :=
  { dm := fun _ => DMOutcome.sendFailed, guildFound := true,
    channelFound := true, broadcastOk := true }

end SleepBot

namespace SleepBot

/-- Unfolding lemma: `check_bedtime` as a case split on the computed level
and the stored timestamp (the dead `minutes_past is None` guard reduces
away definitionally because `should_send_reminder` always yields a value). -/
theorem check_bedtime_eq (now : PyDateTime) (cfg : BotConfig)
    (s : SchedulerState) :
    check_bedtime now cfg s =
      match get_escalation_level (should_send_reminder now cfg) with
      | none => (s, none)
      | some current_level =>
        match s.last_ping_time with
        | none =>
            ({ last_ping_time := some now, escalation_level := current_level },
             some current_level)
        | some t =>
            if dtSub now t ≥ (get_ping_interval current_level : ℚ) then
              ({ last_ping_time := some now,
                 escalation_level := current_level }, some current_level)
            else
              ({ last_ping_time := some t,
                 escalation_level := current_level }, none) := rfl

/-- An out-of-window tick (`get_escalation_level` yields `none`) returns the
state unchanged and emits nothing. -/
theorem check_bedtime_out_of_window (now : PyDateTime) (cfg : BotConfig)
    (s : SchedulerState)
    (h : get_escalation_level (should_send_reminder now cfg) = none) :
    check_bedtime now cfg s = (s, none) := by
  rw [check_bedtime_eq, h]

/-- An in-window tick with no stored timestamp fires immediately. -/
theorem check_bedtime_first_fire (now : PyDateTime) (cfg : BotConfig)
    (s : SchedulerState) (L : ℤ)
    (h : get_escalation_level (should_send_reminder now cfg) = some L)
    (hs : s.last_ping_time = none) :
    check_bedtime now cfg s =
      ({ last_ping_time := some now, escalation_level := L }, some L) := by
  rw [check_bedtime_eq, h, hs]

/-- An in-window tick whose stored timestamp is at least the level's interval
in the past fires and refreshes the timestamp. -/
theorem check_bedtime_due_fire (now : PyDateTime) (cfg : BotConfig)
    (s : SchedulerState) (L : ℤ) (t : PyDateTime)
    (h : get_escalation_level (should_send_reminder now cfg) = some L)
    (hs : s.last_ping_time = some t)
    (hd : (get_ping_interval L : ℚ) ≤ dtSub now t) :
    check_bedtime now cfg s =
      ({ last_ping_time := some now, escalation_level := L }, some L) := by
  rw [check_bedtime_eq, h, hs]
  simp only [ge_iff_le, if_pos hd]

/-- An in-window tick arriving before the level's interval has elapsed keeps
the stored timestamp, still updates the level, and emits nothing. -/
theorem check_bedtime_skip (now : PyDateTime) (cfg : BotConfig)
    (s : SchedulerState) (L : ℤ) (t : PyDateTime)
    (h : get_escalation_level (should_send_reminder now cfg) = some L)
    (hs : s.last_ping_time = some t)
    (hd : dtSub now t < (get_ping_interval L : ℚ)) :
    check_bedtime now cfg s =
      ({ last_ping_time := some t, escalation_level := L }, none) := by
  rw [check_bedtime_eq, h, hs]
  simp only [ge_iff_le, if_neg (not_le.mpr hd)]

/-- C4: `get_escalation_level` is total and the thresholds -15, 0, 5, 15, 25
carve its domain into half-open buckets with no gap or overlap. -/
theorem classify_partition (m : ℚ) :
    (get_escalation_level m = none ↔ m < -15) ∧
    (get_escalation_level m = some 0 ↔ -15 ≤ m ∧ m < 0) ∧
    (get_escalation_level m = some 1 ↔ 0 ≤ m ∧ m < 5) ∧
    (get_escalation_level m = some 2 ↔ 5 ≤ m ∧ m < 15) ∧
    (get_escalation_level m = some 3 ↔ 15 ≤ m ∧ m < 25) ∧
    (get_escalation_level m = some 4 ↔ 25 ≤ m) := by
  unfold get_escalation_level
  split_ifs with h1 h2 h3 h4 h5 <;>
    refine ⟨?_, ?_, ?_, ?_, ?_, ?_⟩ <;>
    constructor <;>
    intro h <;>
    first
      | rfl
      | linarith
      | exact ⟨by linarith, by linarith⟩
      | exact absurd h (by decide)

/-- C7: `get_ping_interval` realises exactly the fixed table
PreWarning→900s, AtDeadline→300s, Escalating5m→300s, Escalating2m→120s,
MaxUrgency→60s, with 300s for every other input, and is monotonically
non-increasing on the levels 0..4. -/
theorem ping_interval_table :
    get_ping_interval 0 = 900 ∧ get_ping_interval 1 = 300 ∧
    get_ping_interval 2 = 300 ∧ get_ping_interval 3 = 120 ∧
    get_ping_interval 4 = 60 ∧
    (∀ l : ℤ, l < 0 ∨ 4 < l → get_ping_interval l = 300) ∧
    (∀ a b : ℤ, 0 ≤ a → a ≤ b → b ≤ 4 →
      get_ping_interval b ≤ get_ping_interval a) := by
  refine ⟨rfl, rfl, rfl, rfl, rfl, ?_, ?_⟩
  · intro l hl
    unfold get_ping_interval
    split_ifs <;> omega
  · intro a b ha hab hb
    unfold get_ping_interval
    split_ifs <;> omega

/-- Witness for C7: level 7 is outside the table and yields the 300s
default, and the interval at level 3 is at most that at level 1. -/
theorem ping_interval_table_witness :
    ((7 : ℤ) < 0 ∨ (4 : ℤ) < 7) ∧ get_ping_interval 7 = 300 ∧
    ((0 : ℤ) ≤ 1 ∧ (1 : ℤ) ≤ 3 ∧ (3 : ℤ) ≤ 4) ∧
    get_ping_interval 3 ≤ get_ping_interval 1 :=
  ⟨by decide, ping_interval_table.2.2.2.2.2.1 7 (by decide),
   ⟨by decide, by decide, by decide⟩,
   ping_interval_table.2.2.2.2.2.2 1 3 (by decide) (by decide) (by decide)⟩

/-- C1 (code bug): the spec's window reset does not happen.  With bedtime
22:30, a tick at 22:00 has `minutes_past = -30 < -15`, yet starting from the
active-escalation state `(some (previous day 23:20), level 4)` the tick
returns that state unchanged — `last_ping_time` stays non-null — because the
reset is guarded by the unreachable `minutes_past is None` test while the
actually-taken `current_level is None` branch returns without touching the
globals. -/
theorem out_of_window_tick_does_not_reset :
    should_send_reminder ⟨0, 79200⟩ cfg2230 < -15 ∧
    check_bedtime ⟨0, 79200⟩ cfg2230
        { last_ping_time := some ⟨-1, 84000⟩, escalation_level := 4 } =
      ({ last_ping_time := some ⟨-1, 84000⟩, escalation_level := 4 }, none) ∧
    ({ last_ping_time := some ⟨-1, 84000⟩, escalation_level := 4 } :
        SchedulerState).last_ping_time ≠ none := by
  have hm : should_send_reminder ⟨0, 79200⟩ cfg2230 = -30 := by
    norm_num [should_send_reminder, cfg2230]
  have hl : get_escalation_level (should_send_reminder ⟨0, 79200⟩ cfg2230)
      = none := by
    rw [hm]; norm_num [get_escalation_level]
  exact ⟨by rw [hm]; norm_num, check_bedtime_out_of_window _ _ _ hl, by simp⟩

/-- C3 (code bug): the initial state is `(none, 0)`, but an out-of-window
tick does not re-establish it.  With bedtime 23:00, a tick at 22:30
(`minutes_past = -30 < -15`) starting from `(some (previous day 23:53),
level 2)` leaves that state intact instead of resetting to the initial
state, so `lastNotifiedAt` stays non-null while the moment is outside the
reminder window. -/
theorem invariant_not_reestablished :
    initialState.last_ping_time = none ∧
    initialState.escalation_level = 0 ∧
    should_send_reminder ⟨5, 81000⟩ cfg2300 < -15 ∧
    check_bedtime ⟨5, 81000⟩ cfg2300
        { last_ping_time := some ⟨4, 86000⟩, escalation_level := 2 } =
      ({ last_ping_time := some ⟨4, 86000⟩, escalation_level := 2 }, none) ∧
    (check_bedtime ⟨5, 81000⟩ cfg2300
        { last_ping_time := some ⟨4, 86000⟩, escalation_level := 2 }
      ).1.last_ping_time ≠ none := by
  have hm : should_send_reminder ⟨5, 81000⟩ cfg2300 = -30 := by
    norm_num [should_send_reminder, cfg2300]
  have hl : get_escalation_level (should_send_reminder ⟨5, 81000⟩ cfg2300)
      = none := by
    rw [hm]; norm_num [get_escalation_level]
  refine ⟨rfl, rfl, by rw [hm]; norm_num, check_bedtime_out_of_window _ _ _ hl, ?_⟩
  rw [check_bedtime_out_of_window _ _ _ hl]
  simp

/-- C5: an in-window tick fires (emitting the effect and stamping
`last_ping_time := now`) exactly when no timestamp is stored or the stored
one is at least `get_ping_interval level` seconds old; otherwise it emits
nothing and keeps the timestamp.  Consequently a tick one second before the
interval has elapsed since a firing tick emits nothing, and a tick one
second after it fires. -/
theorem tick_rate_limiting (now : PyDateTime) (cfg : BotConfig)
    (s : SchedulerState) (L : ℤ)
    (hL : get_escalation_level (should_send_reminder now cfg) = some L) :
    (check_bedtime now cfg s =
        ({ last_ping_time := some now, escalation_level := L }, some L) ↔
      s.last_ping_time = none ∨
        ∃ t, s.last_ping_time = some t ∧
          (get_ping_interval L : ℚ) ≤ dtSub now t) ∧
    (∀ t, s.last_ping_time = some t →
      dtSub now t < (get_ping_interval L : ℚ) →
      check_bedtime now cfg s =
        ({ last_ping_time := some t, escalation_level := L }, none)) ∧
    (∀ t0 : PyDateTime, dtSub now t0 = (get_ping_interval L : ℚ) - 1 →
      ∀ L0 : ℤ, (check_bedtime now cfg
        { last_ping_time := some t0, escalation_level := L0 }).2 = none) ∧
    (∀ t0 : PyDateTime, dtSub now t0 = (get_ping_interval L : ℚ) + 1 →
      ∀ L0 : ℤ, check_bedtime now cfg
        { last_ping_time := some t0, escalation_level := L0 } =
          ({ last_ping_time := some now, escalation_level := L }, some L)) := by
  refine ⟨⟨?_, ?_⟩, ?_, ?_, ?_⟩
  · intro h
    cases hs : s.last_ping_time with
    | none => exact Or.inl rfl
    | some t =>
      refine Or.inr ⟨t, rfl, ?_⟩
      by_contra hd
      push_neg at hd
      rw [check_bedtime_skip now cfg s L t hL hs hd] at h
      exact absurd (congrArg Prod.snd h) (by simp)
  · intro h
    rcases h with hnone | ⟨t, hs, hd⟩
    · exact check_bedtime_first_fire now cfg s L hL hnone
    · exact check_bedtime_due_fire now cfg s L t hL hs hd
  · intro t hs hd
    exact check_bedtime_skip now cfg s L t hL hs hd
  · intro t0 hdt L0
    have hlt : dtSub now t0 < (get_ping_interval L : ℚ) := by
      rw [hdt]; linarith
    rw [check_bedtime_skip now cfg _ L t0 hL rfl hlt]
  · intro t0 hdt L0
    have hge : (get_ping_interval L : ℚ) ≤ dtSub now t0 := by
      rw [hdt]; linarith
    exact check_bedtime_due_fire now cfg _ L t0 hL rfl hge

/-- Witness for C5: bedtime 22:30, first tick at 23:00 (level 4, interval
60s) fires from the initial state; a tick 59s later emits nothing; a tick
61s later fires. -/
theorem tick_rate_limiting_witness :
    get_escalation_level (should_send_reminder ⟨0, 82800⟩ cfg2230) = some 4 ∧
    check_bedtime ⟨0, 82800⟩ cfg2230 initialState =
      ({ last_ping_time := some ⟨0, 82800⟩, escalation_level := 4 }, some 4) ∧
    (check_bedtime ⟨0, 82859⟩ cfg2230
        { last_ping_time := some ⟨0, 82800⟩, escalation_level := 4 }).2
      = none ∧
    check_bedtime ⟨0, 82861⟩ cfg2230
        { last_ping_time := some ⟨0, 82800⟩, escalation_level := 4 } =
      ({ last_ping_time := some ⟨0, 82861⟩, escalation_level := 4 },
       some 4) := by
  have h0 : get_escalation_level (should_send_reminder ⟨0, 82800⟩ cfg2230)
      = some 4 := by
    norm_num [should_send_reminder, cfg2230, get_escalation_level]
  have h1 : get_escalation_level (should_send_reminder ⟨0, 82859⟩ cfg2230)
      = some 4 := by
    norm_num [should_send_reminder, cfg2230, get_escalation_level]
  have h2 : get_escalation_level (should_send_reminder ⟨0, 82861⟩ cfg2230)
      = some 4 := by
    norm_num [should_send_reminder, cfg2230, get_escalation_level]
  refine ⟨h0,
    ((tick_rate_limiting ⟨0, 82800⟩ cfg2230 initialState 4 h0).1).mpr
      (Or.inl rfl), ?_, ?_⟩
  · exact (tick_rate_limiting ⟨0, 82859⟩ cfg2230
      { last_ping_time := some ⟨0, 82800⟩, escalation_level := 4 } 4
      h1).2.2.1 ⟨0, 82800⟩ (by norm_num [dtSub, get_ping_interval]) 4
  · exact (tick_rate_limiting ⟨0, 82861⟩ cfg2230
      { last_ping_time := some ⟨0, 82800⟩, escalation_level := 4 } 4
      h2).2.2.2 ⟨0, 82800⟩ (by norm_num [dtSub, get_ping_interval]) 4

/-- C9: the embedded `should_send_reminder` always yields a minutes value
(never `None`), so the reset branch of `check_bedtime` can never run: once
`last_ping_time` is set it is never cleared, and an out-of-window tick
returns the state untouched. -/
theorem minutes_past_never_none (now : PyDateTime) (cfg : BotConfig)
    (s : SchedulerState) :
    (some (should_send_reminder now cfg) ≠ (none : Option ℚ)) ∧
    (s.last_ping_time.isSome = true →
      ((check_bedtime now cfg s).1).last_ping_time.isSome = true) ∧
    (get_escalation_level (should_send_reminder now cfg) = none →
      check_bedtime now cfg s = (s, none)) := by
  refine ⟨by simp, ?_, fun h => check_bedtime_out_of_window now cfg s h⟩
  intro hsome
  cases hl : get_escalation_level (should_send_reminder now cfg) with
  | none => rw [check_bedtime_out_of_window now cfg s hl]; exact hsome
  | some L =>
    cases hs : s.last_ping_time with
    | none => rw [check_bedtime_first_fire now cfg s L hl hs]; rfl
    | some t =>
      by_cases hd : (get_ping_interval L : ℚ) ≤ dtSub now t
      · rw [check_bedtime_due_fire now cfg s L t hl hs hd]; rfl
      · rw [check_bedtime_skip now cfg s L t hl hs (not_le.mp hd)]; rfl

/-- Witness for C9: a 22:05 tick (minutes past = -25, out of window) with a
stored timestamp keeps the timestamp stored and returns the state
unchanged. -/
theorem minutes_past_never_none_witness :
    (({ last_ping_time := some ⟨0, 0⟩, escalation_level := 1 } :
        SchedulerState).last_ping_time.isSome = true) ∧
    ((check_bedtime ⟨0, 79500⟩ cfg2230
        { last_ping_time := some ⟨0, 0⟩, escalation_level := 1 }
      ).1).last_ping_time.isSome = true ∧
    get_escalation_level (should_send_reminder ⟨0, 79500⟩ cfg2230) = none ∧
    check_bedtime ⟨0, 79500⟩ cfg2230
        { last_ping_time := some ⟨0, 0⟩, escalation_level := 1 } =
      ({ last_ping_time := some ⟨0, 0⟩, escalation_level := 1 }, none) := by
  have hl : get_escalation_level (should_send_reminder ⟨0, 79500⟩ cfg2230)
      = none := by
    norm_num [should_send_reminder, cfg2230, get_escalation_level]
  have h := minutes_past_never_none ⟨0, 79500⟩ cfg2230
    { last_ping_time := some ⟨0, 0⟩, escalation_level := 1 }
  exact ⟨rfl, h.2.1 rfl, hl, h.2.2 hl⟩

/-- C10: with an empty recipient list, a due in-window tick still stamps
`last_ping_time := now` although `send_reminders` returns without attempting
any delivery, and later ticks within the interval are rate-limited as if a
notification had gone out. -/
theorem empty_recipients_still_rate_limited (now : PyDateTime)
    (cfg : BotConfig) (s : SchedulerState) (L : ℤ) (env : DeliveryEnv)
    (hempty : cfg.userIds = [])
    (hL : get_escalation_level (should_send_reminder now cfg) = some L)
    (hs : s.last_ping_time = none) :
    check_bedtime now cfg s =
      ({ last_ping_time := some now, escalation_level := L }, some L) ∧
    send_reminders cfg env =
      { users := [], dmDelivered := [], broadcastSent := false,
        broadcastMentions := [] } ∧
    (∀ now2 L2,
      get_escalation_level (should_send_reminder now2 cfg) = some L2 →
      dtSub now2 now < (get_ping_interval L2 : ℚ) →
      (check_bedtime now2 cfg
        { last_ping_time := some now, escalation_level := L }).2 = none) := by
  refine ⟨check_bedtime_first_fire now cfg s L hL hs, ?_, ?_⟩
  · unfold send_reminders
    rw [if_pos hempty]
  · intro now2 L2 h2 hd
    rw [check_bedtime_skip now2 cfg _ L2 now h2 rfl hd]

/-- Witness for C10: bedtime 22:30 with no configured recipients; the 23:00
tick fires without any delivery, and a tick 30s later (interval 60s) emits
nothing. -/
theorem empty_recipients_still_rate_limited_witness :
    cfgNoUsers.userIds = [] ∧
    get_escalation_level (should_send_reminder ⟨0, 82800⟩ cfgNoUsers)
      = some 4 ∧
    check_bedtime ⟨0, 82800⟩ cfgNoUsers initialState =
      ({ last_ping_time := some ⟨0, 82800⟩, escalation_level := 4 },
       some 4) ∧
    send_reminders cfgNoUsers envAllOk =
      { users := [], dmDelivered := [], broadcastSent := false,
        broadcastMentions := [] } ∧
    (check_bedtime ⟨0, 82830⟩ cfgNoUsers
        { last_ping_time := some ⟨0, 82800⟩, escalation_level := 4 }).2
      = none := by
  have h0 : get_escalation_level (should_send_reminder ⟨0, 82800⟩ cfgNoUsers)
      = some 4 := by
    norm_num [should_send_reminder, cfgNoUsers, get_escalation_level]
  have h30 : get_escalation_level (should_send_reminder ⟨0, 82830⟩ cfgNoUsers)
      = some 4 := by
    norm_num [should_send_reminder, cfgNoUsers, get_escalation_level]
  have h := empty_recipients_still_rate_limited ⟨0, 82800⟩ cfgNoUsers
    initialState 4 envAllOk rfl h0 rfl
  exact ⟨rfl, h0, h.1, h.2.1,
    h.2.2 ⟨0, 82830⟩ 4 h30 (by norm_num [dtSub, get_ping_interval])⟩

/-- C8: for a level in `[0, 4]`, `test_reminder` invokes `send_reminders`
immediately — no rate-limit check — and returns the scheduler state exactly
as it was. -/
theorem force_notify_frame (level : ℤ) (cfg : BotConfig) (env : DeliveryEnv)
    (s : SchedulerState) (h0 : 0 ≤ level) (h4 : level ≤ 4) :
    test_reminder level cfg env s = (s, some (send_reminders cfg env)) := by
  unfold test_reminder
  rw [if_pos ⟨h0, h4⟩]

/-- Witness for C8: `forceNotify(2)` from a state with a fresh timestamp and
level 3 dispatches delivery and leaves the state untouched. -/
theorem force_notify_frame_witness :
    ((0 : ℤ) ≤ 2 ∧ (2 : ℤ) ≤ 4) ∧
    test_reminder 2 cfg2230 envAllOk
        { last_ping_time := some ⟨0, 82800⟩, escalation_level := 3 } =
      ({ last_ping_time := some ⟨0, 82800⟩, escalation_level := 3 },
       some (send_reminders cfg2230 envAllOk)) :=
  ⟨⟨by decide, by decide⟩,
   force_notify_frame 2 cfg2230 envAllOk
     { last_ping_time := some ⟨0, 82800⟩, escalation_level := 3 }
     (by decide) (by decide)⟩

/-- The DM loop visits every recipient regardless of earlier failures: the
accumulated `users` are exactly the recipients whose `fetch_user` succeeded,
and the delivered list exactly those whose DM went out. -/
theorem dmLoop_characterization (env : DeliveryEnv) (l : List ℕ)
    (a b : List ℕ) :
    l.foldl (dmLoopStep env) (a, b) =
      (a ++ l.filter (fun u => !decide (env.dm u = DMOutcome.fetchFailed)),
       b ++ l.filter (fun u => decide (env.dm u = DMOutcome.delivered))) := by
  induction l generalizing a b with
  | nil => simp
  | cons x xs ih =>
    cases hx : env.dm x <;>
      simp [dmLoopStep, hx, ih, List.filter_cons]

/-- C2 counterexample: a single recipient whose account fetch succeeds but
whose DM raises `discord.Forbidden` is "skipped", yet the broadcast is still
sent and mentions that recipient although nobody was successfully
notified. -/
theorem broadcast_mentions_unnotified :
    (send_reminders cfg2230 envDMsBlocked).dmDelivered = [] ∧
    (send_reminders cfg2230 envDMsBlocked).broadcastSent = true ∧
    (send_reminders cfg2230 envDMsBlocked).broadcastMentions = [111] :=
  ⟨rfl, rfl, rfl⟩

/-- C2 amended: `send_reminders` processes every recipient (failures only
skip that recipient), sends at most one broadcast — exactly when a server
and channel are configured and resolvable, the broadcast send succeeds, and
at least one recipient's *fetch* succeeded — and mentions exactly the
fetched recipients, including those whose DM delivery failed. -/
theorem send_reminders_characterization (cfg : BotConfig)
    (env : DeliveryEnv) :
    (send_reminders cfg env).users =
      cfg.userIds.filter
        (fun u => !decide (env.dm u = DMOutcome.fetchFailed)) ∧
    (send_reminders cfg env).dmDelivered =
      cfg.userIds.filter
        (fun u => decide (env.dm u = DMOutcome.delivered)) ∧
    ((send_reminders cfg env).broadcastSent = true ↔
      cfg.serverId.isSome = true ∧ cfg.channelId.isSome = true ∧
      cfg.userIds.filter
        (fun u => !decide (env.dm u = DMOutcome.fetchFailed)) ≠ [] ∧
      env.guildFound = true ∧ env.channelFound = true ∧
      env.broadcastOk = true) ∧
    (send_reminders cfg env).broadcastMentions =
      (if (send_reminders cfg env).broadcastSent then
        cfg.userIds.filter
          (fun u => !decide (env.dm u = DMOutcome.fetchFailed))
      else []) := by
  unfold send_reminders
  by_cases hempty : cfg.userIds = []
  · rw [if_pos hempty, hempty]
    simp
  · rw [if_neg hempty]
    simp only [dmLoop_characterization, List.nil_append]
    refine ⟨trivial, trivial, ?_, trivial⟩
    simp only [Bool.and_eq_true, Bool.not_eq_true', List.isEmpty_eq_false,
      ne_eq]
    constructor
    · rintro ⟨⟨⟨⟨⟨hs, hc⟩, hu⟩, hg⟩, hch⟩, hb⟩
      exact ⟨hs, hc, hu, hg, hch, hb⟩
    · rintro ⟨hs, hc, hu, hg, hch, hb⟩
      exact ⟨⟨⟨⟨⟨hs, hc⟩, hu⟩, hg⟩, hch⟩, hb⟩

/-- C6 counterexample: with a token present the process proceeds to run the
bot (and hence the scheduler) even though the configured bedtime string
`"abc"` is malformed — its parse, which happens inside the tick handler,
fails. -/
theorem startup_ignores_malformed_bedtime :
    startup_runs_bot (some ['t', 'o', 'k']) = true ∧
    parse_bedtime ['a', 'b', 'c'] = none :=
  ⟨rfl, rfl⟩

/-- C6 amended: the only startup check is the credential — an unset or empty
token stops the process before the bot runs, and any non-empty token lets it
proceed regardless of the configured bedtime; bedtime parsing (which rejects
`"abc"` and accepts `"22:30"`) happens only inside the tick handler. -/
theorem startup_checks_only_token :
    startup_runs_bot none = false ∧
    startup_runs_bot (some []) = false ∧
    (∀ t : List Char, t ≠ [] → startup_runs_bot (some t) = true) ∧
    parse_bedtime ['a', 'b', 'c'] = none ∧
    parse_bedtime ['2', '2', ':', '3', '0'] = some (22, 30) := by
  refine ⟨rfl, rfl, ?_, rfl, by decide⟩
  intro t ht
  cases t with
  | nil => exact absurd rfl ht
  | cons c cs => rfl

/-- Witness for C6 (amended): the non-empty token `"tok"` lets startup
proceed. -/
theorem startup_checks_only_token_witness :
    (['t', 'o', 'k'] : List Char) ≠ [] ∧
    startup_runs_bot (some ['t', 'o', 'k']) = true :=
  ⟨by decide, startup_checks_only_token.2.2.1 ['t', 'o', 'k'] (by decide)⟩

end SleepBot
